import Mathlib

/-!
Verification of the web-scraping-api repository's core logic against its
natural-language specification.  Each section shallowly embeds one module of
the source (src/lib/ratelimit.ts, the cache module, src/lib/puppeteer.ts,
the retry helper of the base scraper, src/lib/errors.ts, the field-resolution
loop of the news scraper and src/lib/markdown.ts) as executable Lean
definitions, and the theorems at the end settle the specification's claims
about them.
-/

namespace WebScrape

/-! ## Rate limiter (src/lib/ratelimit.ts)

`kv.get` for the rate-limit key either raises (modelled `Except.error`) or
returns the stored window record (`Option RLData`, `none` when the key is
absent).  Times are milliseconds as `Nat`; `remaining` is an `Int` because
`maxRequests - count` may be negative in JavaScript. -/

/-- The window record stored in KV under `ratelimit:<domain>`. -/
structure RLData where
  count : Nat
  reset : Nat
  deriving Repr, DecidableEq

/-- Mirror of the `RateLimitInfo` interface. -/
structure RateLimitInfo where
  limited : Bool
  remaining : Int
  reset : Nat
  current : Nat
  max : Nat
  resetInSeconds : Nat
  deriving Repr, DecidableEq

/-- `Math.ceil (a / b)` on non-negative integers. -/
def ceilDiv (a b : Nat) : Nat := (a + b - 1) / b

/-- `checkRateLimit(domain, maxRequests, windowMs)`: reads the stored window
record and reports whether the domain is currently limited; any store error
is caught and reported as not limited. -/
def checkRateLimit (store : Except Unit (Option RLData)) (now maxRequests windowMs : Nat) :
    RateLimitInfo :=
  match store with
  | Except.error _ =>
      -- catch branch: default to not limited
      { limited := false, remaining := maxRequests, reset := now + windowMs,
        current := 0, max := maxRequests, resetInSeconds := ceilDiv windowMs 1000 }
  | Except.ok rateLimitData =>
      match rateLimitData with
      | none =>
          { limited := false, remaining := maxRequests, reset := now + windowMs,
            current := 0, max := maxRequests, resetInSeconds := ceilDiv windowMs 1000 }
      | some data =>
          if now > data.reset then
            { limited := false, remaining := maxRequests, reset := now + windowMs,
              current := 0, max := maxRequests, resetInSeconds := ceilDiv windowMs 1000 }
          else
            let remaining : Int := (maxRequests : Int) - data.count
            { limited := remaining ≤ 0, remaining := remaining, reset := data.reset,
              current := data.count, max := maxRequests,
              resetInSeconds := ceilDiv (data.reset - now) 1000 }

/-- `incrementRateLimit(domain, maxRequests, windowMs)` on the happy path
(no store error): returns the info and the new stored record. -/
def incrementRateLimit (state : Option RLData) (now maxRequests windowMs : Nat) :
    RateLimitInfo × Option RLData :=
  match state with
  | none =>
      let reset := now + windowMs
      ({ limited := false, remaining := (maxRequests : Int) - 1,
         reset := reset, current := 1, max := maxRequests,
         resetInSeconds := ceilDiv windowMs 1000 },
       some { count := 1, reset := reset })
  | some data =>
      if now > data.reset then
        let reset := now + windowMs
        ({ limited := false, remaining := (maxRequests : Int) - 1,
           reset := reset, current := 1, max := maxRequests,
           resetInSeconds := ceilDiv windowMs 1000 },
         some { count := 1, reset := reset })
      else
        let count := data.count + 1
        let remaining : Int := (maxRequests : Int) - count
        ({ limited := remaining ≤ 0, remaining := remaining, reset := data.reset,
           current := count, max := maxRequests,
           resetInSeconds := ceilDiv (data.reset - now) 1000 },
         some { count := count, reset := data.reset })

/-- `checkAndIncrementRateLimit(domain, maxRequests, windowMs)`: check first;
if already limited, return without incrementing (no store write), else
increment. -/
def checkAndIncrementRateLimit (state : Option RLData) (now maxRequests windowMs : Nat) :
    RateLimitInfo × Option RLData :=
  let rateLimitInfo := checkRateLimit (Except.ok state) now maxRequests windowMs
  if rateLimitInfo.limited then
    (rateLimitInfo, state)
  else
    incrementRateLimit state now maxRequests windowMs

/-- Sequential (non-interleaved) admission calls at the given times, against
a single domain's stored record. -/
def runRateCalls (times : List Nat) (maxRequests windowMs : Nat) (state : Option RLData) :
    List RateLimitInfo × Option RLData :=
  match times with
  | [] => ([], state)
  | t :: ts =>
      let (info, state1) := checkAndIncrementRateLimit state t maxRequests windowMs
      let (infos, state2) := runRateCalls ts maxRequests windowMs state1
      (info :: infos, state2)

/-! ## Cache layer (cache module bundled with src/lib/scrapers/techdocs.ts)

`generateCacheKey` sorts the parameter object's keys, joins
`key:JSON.stringify(value)` pairs with `|`, concatenates namespace and URL,
base64-encodes the UTF-8 bytes of the result and replaces every `+`, `/`
and `=` with `_`.  A JavaScript object literal is embedded as an association
list of key/value pairs in property-insertion order. -/

/-- A small model of the JSON values that can appear as scrape parameters. -/
inductive Json where
  | null : Json
  | bool (b : Bool) : Json
  | num (n : Int) : Json
  | str (s : String) : Json
  deriving Repr, DecidableEq

/-- `JSON.stringify` escaping for one character of a string literal. -/
def jsonEscapeChar (c : Char) : String :=
  if c = '"' then "\\\""
  else if c = '\\' then "\\\\"
  else if c = '\n' then "\\n"
  else if c = '\t' then "\\t"
  else if c = '\r' then "\\r"
  else String.singleton c

/-- `JSON.stringify` on the modelled values. -/
def jsonStringify : Json → String
  | .null => "null"
  | .bool true => "true"
  | .bool false => "false"
  | .num n => toString n
  | .str s => "\"" ++ String.join (s.data.map jsonEscapeChar) ++ "\""

/-- Lexicographic comparison of two key strings by code point, the order
used by JavaScript's `Array.prototype.sort` on ASCII keys. -/
def keyLe (a b : String) : Bool :=
  let rec go : List Char → List Char → Bool
    | [], _ => true
    | _ :: _, [] => false
    | x :: xs, y :: ys =>
        if x.toNat < y.toNat then true
        else if y.toNat < x.toNat then false
        else go xs ys
  go a.data b.data

/-- Insert a key into an already sorted key list. -/
def insertKey (k : String) : List String → List String
  | [] => [k]
  | x :: xs => if keyLe k x then k :: x :: xs else x :: insertKey k xs

/-- `Object.keys(params).sort()`. -/
def sortKeys (l : List String) : List String := l.foldr insertKey []

/-- `params[key]` lookup on the association-list model of the object. -/
def assocFind (k : String) : List (String × Json) → Option Json
  | [] => none
  | (k1, v) :: rest => if k1 = k then some v else assocFind k rest

/-- UTF-8 bytes of one character. -/
def utf8Bytes (c : Char) : List Nat :=
  let n := c.toNat
  if n < 128 then [n]
  else if n < 2048 then [192 + n / 64, 128 + n % 64]
  else if n < 65536 then [224 + n / 4096, 128 + n / 64 % 64, 128 + n % 64]
  else [240 + n / 262144, 128 + n / 4096 % 64, 128 + n / 64 % 64, 128 + n % 64]

/-- UTF-8 bytes of a string (`Buffer.from(key)`). -/
def strBytes (s : String) : List Nat := s.data.flatMap utf8Bytes

/-- The standard base64 alphabet character for a 6-bit group. -/
def b64Char (n : Nat) : Char :=
  "ABCDEFGHIJKLMNOPQRSTUVWXYZabcdefghijklmnopqrstuvwxyz0123456789+/".data.getD n 'A'

/-- Base64 encoding with padding (`Buffer.prototype.toString('base64')`). -/
def b64Chunks : List Nat → List Char
  | [] => []
  | [b0] => [b64Char (b0 / 4), b64Char (b0 % 4 * 16), '=', '=']
  | [b0, b1] => [b64Char (b0 / 4), b64Char (b0 % 4 * 16 + b1 / 16), b64Char (b1 % 16 * 4), '=']
  | b0 :: b1 :: b2 :: rest =>
      b64Char (b0 / 4) :: b64Char (b0 % 4 * 16 + b1 / 16) ::
        b64Char (b1 % 16 * 4 + b2 / 64) :: b64Char (b2 % 64) :: b64Chunks rest

/-- `.replace(/[+/=]/g, '_')`. -/
def urlSafe (cs : List Char) : List Char :=
  cs.map fun c => if c = '+' ∨ c = '/' ∨ c = '=' then '_' else c

/-- `generateCacheKey(url, params, namespace)` from the cache module. -/
def generateCacheKey (url : String) (params : List (String × Json))
    (ns : String := "scrape") : String :=
  let paramsString :=
    String.intercalate "|"
      ((sortKeys (params.map Prod.fst)).map fun key =>
        key ++ ":" ++ jsonStringify ((assocFind key params).getD Json.null))
  let key := ns ++ ":" ++ url ++ (if paramsString = "" then "" else ":" ++ paramsString)
  String.mk (urlSafe (b64Chunks (strBytes key)))

/-! `kv.get`/`kv.set` either raise (`Except.error`) or succeed; `getCachedValue`
and `setCachedValue` catch every store error.  `getOrSetCachedValue` is
modelled with an explicit trace of what it did: whether the factory ran and
which `kv.set` call (value and TTL) was issued. -/

/-- `getCachedValue(key)`: the store's answer, with errors treated as `null`.
`none` stands for JavaScript `null` (absent key or stored null). -/
def getCachedValue {V : Type} (kvGet : Except Unit (Option V)) : Option V :=
  match kvGet with
  | Except.ok v => v
  | Except.error _ => none

/-- `setCachedValue(key, value, {ttl})`: true on success, false when the
store raised. -/
def setCachedValue (kvSet : Except Unit Unit) : Bool :=
  match kvSet with
  | Except.ok _ => true
  | Except.error _ => false

/-- Observable trace of one `getOrSetCachedValue` call. -/
structure CacheTrace (V : Type) where
  result : Option V
  factoryCalled : Bool
  wrote : Option (Option V × Nat)
  setOk : Bool
  deriving Repr, DecidableEq

/-- `getOrSetCachedValue(key, factory, options)`: read through
`getCachedValue`; a `null` read (`none`) is a miss, so the factory runs and
its value is written with the TTL via `setCachedValue` (whose failure is
ignored) and returned. -/
def getOrSetCachedValue {V : Type} (kvGet : Except Unit (Option V))
    (kvSet : Except Unit Unit) (factoryVal : Option V) (ttl : Nat) : CacheTrace V :=
  match getCachedValue kvGet with
  | some cachedValue =>
      { result := some cachedValue, factoryCalled := false, wrote := none, setOk := true }
  | none =>
      { result := factoryVal, factoryCalled := true,
        wrote := some (factoryVal, ttl), setOk := setCachedValue kvSet }

/-! ## Retry control (src/lib/puppeteer.ts `navigateToUrl`,
src/lib/scrapers base class `withRetry`)

An operation is a function from the attempt index to its outcome.  Each
model returns the final result, the number of attempts actually performed
and the list of delays (milliseconds) slept between consecutive attempts.
For `navigateToUrl` an outcome is `none` (success) or `some e`; the loop is
`while (retries < maxRetries)` with a fixed 1000 ms sleep, and `remaining`
is the value `maxRetries - retries` so the recursion is structural. -/

/-- One state of `navigateToUrl`'s retry loop: `attempt` attempts are done,
`remaining` iterations are still permitted by the loop guard. -/
def navGo {E : Type} (op : Nat → Option E) (attempt : Nat) :
    Nat → Except E Unit × Nat × List Nat
  | 0 => (Except.ok (), attempt, [])
  | remaining + 1 =>
      match op attempt with
      | none => (Except.ok (), attempt + 1, [])
      | some e =>
          if remaining = 0 then (Except.error e, attempt + 1, [])
          else
            let (res, n, ds) := navGo op (attempt + 1) remaining
            (res, n, 1000 :: ds)

/-- `navigateToUrl(page, url, {maxRetries})` restricted to its retry logic:
at most `maxRetries` total `page.goto` attempts, a fixed 1000 ms wait
between attempts, re-raising the error of the last attempt. -/
def navigateToUrl {E : Type} (op : Nat → Option E) (maxRetries : Nat := 3) :
    Except E Unit × Nat × List Nat :=
  navGo op 0 maxRetries

/-- JavaScript `a || b` on numbers: `0` is falsy. -/
def jsOr (a b : Nat) : Nat := if a = 0 then b else a

/-- One state of `withRetry`'s `for` loop; `mx` is the already-evaluated
`maxRetries || 3` and `remaining` the iterations left out of `mx + 1`.
The fall-through result `Except.error none` models
`throw lastError || new Error('Operation failed after retries')` with
`lastError` still null. -/
def retryGo {E A : Type} (op : Nat → Except E A) (mx attempt : Nat) :
    Nat → Except (Option E) A × Nat × List Nat
  | 0 => (Except.error none, attempt, [])
  | remaining + 1 =>
      match op attempt with
      | Except.ok a => (Except.ok a, attempt + 1, [])
      | Except.error e =>
          if mx ≤ attempt then (Except.error (some e), attempt + 1, [])
          else
            let (res, n, ds) := retryGo op mx (attempt + 1) remaining
            (res, n, (2 ^ attempt * 1000) :: ds)

/-- `BaseScraper.withRetry(fn, maxRetries)`: `(maxRetries || 3) + 1` total
attempts with `2^attempt * 1000` ms exponential backoff between consecutive
attempts, re-raising the last error. -/
def withRetry {E A : Type} (op : Nat → Except E A) (maxRetries : Nat := 3) :
    Except (Option E) A × Nat × List Nat :=
  retryGo op (jsOr maxRetries 3) 0 (jsOr maxRetries 3 + 1)

/-! ## Error classifier (src/lib/errors.ts) -/

/-- The `ErrorType` enum. -/
inductive ErrorType where
  | VALIDATION_ERROR | RATE_LIMIT_ERROR | TIMEOUT_ERROR | SCRAPING_ERROR
  | NETWORK_ERROR | BROWSER_ERROR | INTERNAL_ERROR | NOT_FOUND_ERROR
  deriving Repr, DecidableEq

/-- The `ScrapingError` class: message, kind, HTTP status and optional
structured details. -/
structure ScrapingError where
  message : String
  type : ErrorType
  statusCode : Nat
  details : Option (List (String × String)) := none
  deriving Repr, DecidableEq

/-- Does `pat` start the character list `l`? -/
def startsWithList : List Char → List Char → Bool
  | [], _ => true
  | _ :: _, [] => false
  | p :: ps, c :: cs => p = c && startsWithList ps cs

/-- JavaScript `s.includes(pat)` (case-sensitive substring test). -/
def strIncludes (s pat : String) : Bool :=
  let rec go : List Char → Bool
    | [] => startsWithList pat.data []
    | c :: cs => startsWithList pat.data (c :: cs) || go cs
  go s.data

def createValidationError (message : String)
    (details : Option (List (String × String)) := none) : ScrapingError :=
  { message := message, type := ErrorType.VALIDATION_ERROR, statusCode := 400,
    details := details }

def createRateLimitError (message : String)
    (details : Option (List (String × String)) := none) : ScrapingError :=
  { message := message, type := ErrorType.RATE_LIMIT_ERROR, statusCode := 429,
    details := details }

def createTimeoutError (message : String)
    (details : Option (List (String × String)) := none) : ScrapingError :=
  { message := message, type := ErrorType.TIMEOUT_ERROR, statusCode := 408,
    details := details }

def createScrapingError (message : String)
    (details : Option (List (String × String)) := none) : ScrapingError :=
  { message := message, type := ErrorType.SCRAPING_ERROR, statusCode := 500,
    details := details }

def createNetworkError (message : String)
    (details : Option (List (String × String)) := none) : ScrapingError :=
  { message := message, type := ErrorType.NETWORK_ERROR, statusCode := 503,
    details := details }

def createBrowserError (message : String)
    (details : Option (List (String × String)) := none) : ScrapingError :=
  { message := message, type := ErrorType.BROWSER_ERROR, statusCode := 500,
    details := details }

def createNotFoundError (message : String)
    (details : Option (List (String × String)) := none) : ScrapingError :=
  { message := message, type := ErrorType.NOT_FOUND_ERROR, statusCode := 404,
    details := details }

/-- The possible inputs of `handleError`: a `ScrapingError` instance, a
generic `Error` carrying a message, or any other thrown value. -/
inductive JsThrown where
  | scrapeErr (e : ScrapingError)
  | jsError (message : String)
  | other
  deriving Repr, DecidableEq

/-- `handleError(error)` from src/lib/errors.ts. -/
def handleError : JsThrown → ScrapingError
  | .scrapeErr e => e
  | .jsError message =>
      if strIncludes message "timeout" || strIncludes message "timed out" then
        createTimeoutError ("Operation timed out: " ++ message)
      else if strIncludes message "net::" || strIncludes message "network" then
        createNetworkError ("Network error: " ++ message)
      else if strIncludes message "browser" || strIncludes message "puppeteer" then
        createBrowserError ("Browser error: " ++ message)
      else
        { message := "Internal error: " ++ message, type := ErrorType.INTERNAL_ERROR,
          statusCode := 500 }
  | .other =>
      { message := "An unknown error occurred", type := ErrorType.INTERNAL_ERROR,
        statusCode := 500 }

/-- Modelled from the spec (§4.6, §7): the classification the specification
describes, as a kind/status pair — `ScrapingError` unchanged; message
containing "timeout"/"timed out" → Timeout 408; otherwise "net::"/"network"
→ Network 503; otherwise "browser"/"puppeteer" → Browser 500; anything else
→ Internal 500.  Used only to compare `handleError` against the spec. -/
def specClassify : JsThrown → ErrorType × Nat
  | .scrapeErr e => (e.type, e.statusCode)
  | .jsError message =>
      if strIncludes message "timeout" = true ∨ strIncludes message "timed out" = true then
        (ErrorType.TIMEOUT_ERROR, 408)
      else if strIncludes message "net::" = true ∨ strIncludes message "network" = true then
        (ErrorType.NETWORK_ERROR, 503)
      else if strIncludes message "browser" = true ∨ strIncludes message "puppeteer" = true then
        (ErrorType.BROWSER_ERROR, 500)
      else (ErrorType.INTERNAL_ERROR, 500)
  | .other => (ErrorType.INTERNAL_ERROR, 500)

/-! ## Field resolution (BaseScraper.extractText and
NewsScraper.extractArticleTitle)

A page answers a selector query with either the text content of the first
matching element (`found`, whose payload is `none` when `textContent` is
null) or a `failure` covering both "no element matched" and an evaluation
error — `page.$eval` rejects in either case and `extractText` catches the
rejection. -/

/-- JavaScript whitespace for `String.prototype.trim`. -/
def jsWhitespace (c : Char) : Bool :=
  c = ' ' || c = '\t' || c = '\n' || c = '\r' || c.toNat = 11 || c.toNat = 12

/-- JavaScript `s.trim()`: strip whitespace from both ends. -/
def jsTrim (s : String) : String :=
  String.mk (((s.data.dropWhile jsWhitespace).reverse.dropWhile jsWhitespace).reverse)

/-- Outcome of `page.$eval(selector, el => el.textContent ...)`. -/
inductive QueryRes where
  | found (text : Option String)
  | failure
  deriving Repr, DecidableEq

/-- The page abstraction the field resolver needs: selector queries plus
`page.title()`. -/
structure PageModel where
  query : String → QueryRes
  title : String

/-- `BaseScraper.extractText(page, selector)`:
`el.textContent?.trim() || ''` with every failure caught to `''`. -/
def extractText (page : PageModel) (selector : String) : String :=
  match page.query selector with
  | .failure => ""
  | .found none => ""
  | .found (some t) => jsTrim t

/-- The `for (const selector of selectors)` loop shared by the news
scraper's extractors: first selector whose extracted text is non-empty. -/
def resolveFirst (page : PageModel) : List String → Option String
  | [] => none
  | selector :: rest =>
      let title := extractText page selector
      if title = "" then resolveFirst page rest else some title

/-- The ordered selector list of `NewsScraper.extractArticleTitle`. -/
def newsTitleSelectors : List String :=
  ["h1", "article h1", ".article-title", ".post-title", ".entry-title",
   "[itemprop=\"headline\"]", "header h1", "main h1"]

/-- `NewsScraper.extractArticleTitle(page)`: first matching selector wins,
falling back to `page.title()`. -/
def extractArticleTitle (page : PageModel) : String :=
  match resolveFirst page newsTitleSelectors with
  | some title => title
  | none => page.title

/-! ## Markdown conversion rules (src/lib/markdown.ts)

Only the replacement functions installed by `addImageSizePreservationRule`
and `addTableFormattingRule` carry logic of this repository; the
surrounding Turndown engine is an external collaborator.  An attribute read
through `getAttribute` is `Option String` (`none` = attribute absent);
JavaScript truthiness makes an empty attribute behave like an absent one. -/

/-- Truthiness of `getAttribute`'s result. -/
def attrTruthy (a : Option String) : Bool :=
  match a with
  | none => false
  | some s => !(s = "")

/-- The `images` rule replacement of `addImageSizePreservationRule`:
`alt` is `img.alt || ''`, the others are `getAttribute` results. -/
def imageRuleReplacement (alt : String) (src width height : Option String) : String :=
  let altS := alt
  let srcS := (match src with | none => "" | some s => s)
  if srcS = "" then ""
  else if attrTruthy width && attrTruthy height then
    "![" ++ altS ++ "](" ++ srcS ++ " =" ++ width.getD "" ++ "x" ++ height.getD "" ++ ")"
  else if attrTruthy width then
    "![" ++ altS ++ "](" ++ srcS ++ " =" ++ width.getD "" ++ "x)"
  else if attrTruthy height then
    "![" ++ altS ++ "](" ++ srcS ++ " =x" ++ height.getD "" ++ ")"
  else
    "![" ++ altS ++ "](" ++ srcS ++ ")"

/-- `cell.textContent?.trim() || ''` for one table cell. -/
def cellText (cell : Option String) : String :=
  match cell with
  | none => ""
  | some t => jsTrim t

/-- The `tables` rule replacement of `addTableFormattingRule`; a table is
its list of rows, a row its list of cell text contents.  `content` is the
already-converted inner content Turndown hands to the rule. -/
def tableRuleReplacement (content : String) (rows : List (List (Option String))) : String :=
  match rows with
  | [] => content
  | headerRow :: dataRows =>
      let headers := headerRow.map cellText
      let t1 := "\n" ++ "| " ++ String.intercalate " | " headers ++ " |\n"
      let t2 := t1 ++ "| " ++ String.intercalate " | " (headers.map fun _ => "---") ++ " |\n"
      let t3 := t2 ++ String.join (dataRows.map fun row =>
        "| " ++ String.intercalate " | " (row.map cellText) ++ " |\n")
      t3 ++ "\n"

/-- Modelled from the spec (§4.2, tables): one Markdown table line. -/
def specTableLine (cells : List String) : String :=
  "| " ++ String.intercalate " | " cells ++ " |"

/-- Modelled from the spec (§4.2, tables): the header line from the first
row, then a separator line with `---` once per header column, then one data
line per remaining row in order; each line terminated by a newline, the
whole block wrapped in blank lines.  Used only to compare
`tableRuleReplacement` against the spec. -/
def specTableMarkdown (headerRow : List (Option String)) (dataRows : List (List (Option String))) :
    String :=
  let headers := headerRow.map cellText
  let lines :=
    specTableLine headers ::
      specTableLine (headers.map fun _ => "---") ::
        dataRows.map (fun row => specTableLine (row.map cellText))
  "\n" ++ String.join (lines.map fun l => l ++ "\n") ++ "\n"

/-! ## Claims -/

/-- C1: the spec asserts that with `maxRequests = 3, windowMs = 60000` four
sequential admissions within one window yield allowed, allowed, allowed,
rejected (rejection exactly when the post-increment count exceeds the
maximum).  On the in-window increment path the code instead reports
`limited` as soon as the post-increment count *reaches* the maximum: the
limited flags of four calls at times 0,1,2,3 are
`[false, false, true, true]` — the third admission is already rejected —
while a fifth call after window expiry is allowed again with the stored
count reset to 1.  This off-by-one contradicts the code's own documentation
of `maxRequests` ("Maximum number of requests allowed in the window"): for
`maxRequests ≥ 2` only `maxRequests - 1` requests are admitted per window
(only `maxRequests = 1`, whose first call takes the fresh-window branch
with its hard-coded `limited: false` and whose second is rejected on the
check, behaves as documented). -/
theorem rateLimit_thirdCall_alreadyRejected :
    ((runRateCalls [0, 1, 2, 3] 3 60000 none).1.map RateLimitInfo.limited) =
        [false, false, true, true] ∧
      ((runRateCalls [0, 1, 2, 3, 70000] 3 60000 none).1.map RateLimitInfo.limited) =
        [false, false, true, true, false] ∧
      (runRateCalls [0, 1, 2, 3, 70000] 3 60000 none).2 =
        some { count := 1, reset := 130000 } ∧
      ((runRateCalls [0, 1] 2 60000 none).1.map RateLimitInfo.limited) = [false, true] ∧
      ((runRateCalls [0, 1] 1 60000 none).1.map RateLimitInfo.limited) = [false, true] := by
  decide

/-- C2 counterexample: the claim's separation half is false — two inputs
that differ in the URL (and in the parameters) produce the same cache key,
because namespace, URL and the `key:value` pairs are joined with unescaped
`:` delimiters before encoding. -/
theorem generateCacheKey_collision :
    generateCacheKey "u:a:1" [] "scrape" = generateCacheKey "u" [("a", Json.num 1)] "scrape" ∧
      ("u:a:1" : String) ≠ "u" := by
  constructor
  · decide
  · decide

/-- C2 (amended): `generateCacheKey` is parameter-order independent — for
every URL and namespace, the key of `{a:1, b:2}` equals the key of
`{b:2, a:1}` — but it is not separating: inputs differing in the URL or in
a parameter value may share a key. -/
theorem generateCacheKey_order_independent :
    ∀ (url ns : String),
      generateCacheKey url [("a", Json.num 1), ("b", Json.num 2)] ns =
        generateCacheKey url [("b", Json.num 2), ("a", Json.num 1)] ns := by
  intro url ns
  rfl

/-- C8: store failures never escape the cache and rate-limit layers: a
raising `kv.get` makes `getCachedValue` answer `null` (a miss); a raising
`kv.set` makes `setCachedValue` answer `false` while `getOrSetCachedValue`
still returns the freshly produced value; and a raising rate-limit store
read makes `checkRateLimit` report not limited. -/
theorem storeFailures_are_recovered :
    (∀ (V : Type), getCachedValue (V := V) (Except.error ()) = none) ∧
      setCachedValue (Except.error ()) = false ∧
      (∀ (V : Type) (fv : Option V) (ttl : Nat),
        (getOrSetCachedValue (Except.error ()) (Except.error ()) fv ttl).result = fv) ∧
      (∀ (V : Type) (fv : Option V) (ttl : Nat),
        (getOrSetCachedValue (Except.ok none) (Except.error ()) fv ttl).result = fv ∧
          (getOrSetCachedValue (Except.ok none) (Except.error ()) fv ttl).setOk = false) ∧
      (∀ (now maxRequests windowMs : Nat),
        (checkRateLimit (Except.error ()) now maxRequests windowMs).limited = false) := by
  refine ⟨fun V => rfl, rfl, fun V fv ttl => rfl, fun V fv ttl => ⟨rfl, rfl⟩,
    fun now maxRequests windowMs => rfl⟩

/-- C10: `getOrSetCachedValue` treats a stored `null` as a miss — when the
store reads back `null` and the producer's result is itself `null`, the
producer is invoked, its `null` result is returned and is still written to
the store with the given TTL, so a `null` value is never served from
cache. -/
theorem nullResult_never_served_from_cache :
    ∀ (V : Type) (kvSet : Except Unit Unit) (ttl : Nat),
      (getOrSetCachedValue (Except.ok none) kvSet (none : Option V) ttl).factoryCalled = true ∧
        (getOrSetCachedValue (Except.ok none) kvSet (none : Option V) ttl).result = none ∧
        (getOrSetCachedValue (Except.ok none) kvSet (none : Option V) ttl).wrote =
          some (none, ttl) := by
  intro V kvSet ttl
  exact ⟨rfl, rfl, rfl⟩

/-- On an always-failing operation, `navigateToUrl`'s loop performs exactly
`r + 1` further attempts, sleeping a fixed 1000 ms between consecutive
attempts, and re-raises the error of the last attempt. -/
lemma navGo_allFail {E : Type} (err : Nat → E) :
    ∀ (r attempt : Nat),
      navGo (fun i => some (err i)) attempt (r + 1) =
        (Except.error (err (attempt + r)), attempt + r + 1, List.replicate r 1000) := by
  intro r
  induction r with
  | zero => intro attempt; simp [navGo]
  | succ r ih =>
      intro attempt
      have e1 : attempt + (r + 1) = attempt + 1 + r := by omega
      rw [e1]
      conv_lhs => rw [navGo]
      rw [ih (attempt + 1)]
      simp [List.replicate_succ]

/-- On an always-failing operation, `withRetry`'s loop runs until the break
at `attempt = mx`, sleeping `2 ^ attempt * 1000` ms between consecutive
attempts, and re-raises the error of the last attempt. -/
lemma retryGo_allFail {E A : Type} (err : Nat → E) (mx : Nat) :
    ∀ (r attempt : Nat), attempt + r = mx →
      retryGo (A := A) (fun i => Except.error (err i)) mx attempt (r + 1) =
        (Except.error (some (err mx)), mx + 1,
          (List.range' attempt r).map fun i => 2 ^ i * 1000) := by
  intro r
  induction r with
  | zero =>
      intro attempt h
      subst h
      simp [retryGo]
  | succ r ih =>
      intro attempt h
      have hlt : ¬ mx ≤ attempt := by omega
      conv_lhs => rw [retryGo]
      rw [ih (attempt + 1) (by omega)]
      simp [hlt, List.range'_succ]

/-- C3 counterexample: the retry logic actually applied to page navigation
(`navigateToUrl` with its default `maxRetries = 3`) performs 3 total
attempts — not `maxRetries + 1 = 4` — and sleeps a fixed 1000 ms between
attempts instead of the claimed exponential `2 ^ attempt` seconds. -/
theorem navigateToUrl_retry_counterexample :
    navigateToUrl (fun _ => some "goto failed") 3 =
        (Except.error "goto failed", 3, [1000, 1000]) ∧
      (3 : Nat) ≠ 3 + 1 ∧
      ([1000, 1000] : List Nat) ≠ [1000, 2000, 4000] := by
  refine ⟨rfl, by decide, by decide⟩

/-- C3 (amended): page navigation does not use `withRetry`; `navigateToUrl`
runs its own loop making exactly `maxRetries` total attempts (when every
attempt fails and `maxRetries ≥ 1`) with a fixed 1000 ms delay between
consecutive attempts, re-raising the last attempt's error, and returns
after the first successful attempt.  The separate `BaseScraper.withRetry`
helper is the one that performs `maxRetries + 1` total attempts with
`2 ^ attempt`-second exponential backoff and re-raises the last error (for
`maxRetries ≥ 1`; `maxRetries = 0` falls back to the default 3). -/
theorem navigation_and_withRetry_behavior :
    (∀ (E : Type) (err : Nat → E) (maxRetries : Nat), 1 ≤ maxRetries →
        navigateToUrl (fun i => some (err i)) maxRetries =
          (Except.error (err (maxRetries - 1)), maxRetries,
            List.replicate (maxRetries - 1) 1000)) ∧
      (∀ (E : Type) (op : Nat → Option E) (maxRetries : Nat), 1 ≤ maxRetries →
        op 0 = none → navigateToUrl op maxRetries = (Except.ok (), 1, [])) ∧
      (∀ (E A : Type) (err : Nat → E) (maxRetries : Nat), 1 ≤ maxRetries →
        withRetry (A := A) (fun i => Except.error (err i)) maxRetries =
          (Except.error (some (err maxRetries)), maxRetries + 1,
            (List.range maxRetries).map fun i => 2 ^ i * 1000)) := by
  refine ⟨?_, ?_, ?_⟩
  · intro E err maxRetries h
    obtain ⟨r, rfl⟩ : ∃ r, maxRetries = r + 1 := ⟨maxRetries - 1, by omega⟩
    have := navGo_allFail err r 0
    simpa [navigateToUrl] using this
  · intro E op maxRetries h hop
    cases maxRetries with
    | zero => omega
    | succ r => simp [navigateToUrl, navGo, hop]
  · intro E A err maxRetries h
    have hjs : jsOr maxRetries 3 = maxRetries := by
      unfold jsOr
      have : ¬ maxRetries = 0 := by omega
      simp [this]
    have := retryGo_allFail (A := A) err maxRetries maxRetries 0 (by omega)
    simp only [withRetry, hjs, this, List.range_eq_range']

/-- C3 witness: the navigation loop at `maxRetries = 3` with an
always-failing, an immediately-succeeding, and an always-failing
`withRetry` operation, evaluated concretely. -/
theorem navigation_and_withRetry_behavior_witness :
    navigateToUrl (fun _ => some "navErr") 3 = (Except.error "navErr", 3, [1000, 1000]) ∧
      navigateToUrl (fun _ => (none : Option String)) 3 = (Except.ok (), 1, []) ∧
      withRetry (fun _ => (Except.error "opErr" : Except String Unit)) 3 =
        (Except.error (some "opErr"), 4, [1000, 2000, 4000]) := by
  refine ⟨?_, ?_, ?_⟩
  · have h1 := navigation_and_withRetry_behavior.1 String (fun _ => "navErr") 3 (by decide)
    rw [h1]
    rfl
  · exact navigation_and_withRetry_behavior.2.1 String (fun _ => none) 3 (by decide) rfl
  · have h3 :=
      navigation_and_withRetry_behavior.2.2 String Unit (fun _ => "opErr") 3 (by decide)
    rw [h3]
    rfl

/-- C4: `handleError` realises exactly the classification the spec
describes — `ScrapingError` instances pass through unchanged; a generic
error whose message contains "timeout" or "timed out" becomes a Timeout
error with status 408, otherwise "net::"/"network" a Network error with
503, otherwise "browser"/"puppeteer" a Browser error with 500, and every
other input an Internal error with 500 — and the error constructors carry
the fixed kind-to-status mapping Validation 400, RateLimit 429, Timeout
408, Scraping 500, Network 503, Browser 500, NotFound 404, Internal 500. -/
theorem handleError_matches_spec :
    (∀ e : JsThrown,
        ((handleError e).type, (handleError e).statusCode) = specClassify e) ∧
      (∀ se : ScrapingError, handleError (JsThrown.scrapeErr se) = se) ∧
      (∀ (m : String) (d : Option (List (String × String))),
        ((createValidationError m d).type, (createValidationError m d).statusCode) =
            (ErrorType.VALIDATION_ERROR, 400) ∧
          ((createRateLimitError m d).type, (createRateLimitError m d).statusCode) =
            (ErrorType.RATE_LIMIT_ERROR, 429) ∧
          ((createTimeoutError m d).type, (createTimeoutError m d).statusCode) =
            (ErrorType.TIMEOUT_ERROR, 408) ∧
          ((createScrapingError m d).type, (createScrapingError m d).statusCode) =
            (ErrorType.SCRAPING_ERROR, 500) ∧
          ((createNetworkError m d).type, (createNetworkError m d).statusCode) =
            (ErrorType.NETWORK_ERROR, 503) ∧
          ((createBrowserError m d).type, (createBrowserError m d).statusCode) =
            (ErrorType.BROWSER_ERROR, 500) ∧
          ((createNotFoundError m d).type, (createNotFoundError m d).statusCode) =
            (ErrorType.NOT_FOUND_ERROR, 404)) ∧
      (handleError JsThrown.other).type = ErrorType.INTERNAL_ERROR ∧
      (handleError JsThrown.other).statusCode = 500 := by
  refine ⟨?_, fun se => rfl, fun m d => ⟨rfl, rfl, rfl, rfl, rfl, rfl, rfl⟩, rfl, rfl⟩
  intro e
  cases e with
  | scrapeErr se => rfl
  | other => rfl
  | jsError message =>
      simp only [handleError, specClassify, createTimeoutError, createNetworkError,
        createBrowserError, Bool.or_eq_true]
      split_ifs <;> simp_all

/-- A helper page for evaluating the field-resolution claim: `h1` raises in
evaluation, `article h1` holds a padded title, everything else has null
text content. -/
def samplePage : PageModel where
  query := fun s =>
    if s = "article h1" then QueryRes.found (some "  The Title  ")
    else if s = "h1" then QueryRes.failure
    else QueryRes.found none
  title := "Document Title"

/-- If every selector of the list extracts to the empty string, the
first-match loop finds nothing. -/
lemma resolveFirst_none (page : PageModel) :
    ∀ (sels : List String), (∀ s ∈ sels, extractText page s = "") →
      resolveFirst page sels = none := by
  intro sels
  induction sels with
  | nil => intro h; rfl
  | cons a rest ih =>
      intro h
      have ha := h a (by simp)
      simp [resolveFirst, ha, ih fun s hs => h s (by simp [hs])]

/-- The first-match loop returns the first selector whose extraction is
non-empty, skipping every earlier selector that extracts to empty. -/
lemma resolveFirst_append (page : PageModel) (sel : String) (post : List String) :
    ∀ (pre : List String), (∀ s ∈ pre, extractText page s = "") →
      extractText page sel ≠ "" →
      resolveFirst page (pre ++ sel :: post) = some (extractText page sel) := by
  intro pre
  induction pre with
  | nil =>
      intro _ hsel
      simp [resolveFirst, hsel]
  | cons a rest ih =>
      intro h hsel
      have ha := h a (by simp)
      simp [resolveFirst, ha, ih (fun s hs => h s (by simp [hs])) hsel]

/-- C5: field resolution is first-match-wins and never fatal per field: the
selector loop returns the extraction of the first selector in declared
order whose trimmed text is non-empty (any earlier selector that fails or
extracts empty is skipped); a query failure is treated as the empty
extraction rather than an error; and when every selector of
`extractArticleTitle`'s list misses, the page's document title is
returned. -/
theorem fieldResolution_first_match_wins :
    (∀ (page : PageModel) (pre post : List String) (sel : String),
        (∀ s ∈ pre, extractText page s = "") → extractText page sel ≠ "" →
        resolveFirst page (pre ++ sel :: post) = some (extractText page sel)) ∧
      (∀ (page : PageModel) (sel : String),
        page.query sel = QueryRes.failure → extractText page sel = "") ∧
      (∀ (page : PageModel) (pre post : List String) (sel : String),
        newsTitleSelectors = pre ++ sel :: post →
        (∀ s ∈ pre, extractText page s = "") → extractText page sel ≠ "" →
        extractArticleTitle page = extractText page sel) ∧
      (∀ page : PageModel,
        (∀ s ∈ newsTitleSelectors, extractText page s = "") →
        extractArticleTitle page = page.title) := by
  refine ⟨fun page pre post sel h hsel => resolveFirst_append page sel post pre h hsel,
    ?_, ?_, ?_⟩
  · intro page sel h
    simp [extractText, h]
  · intro page pre post sel hdecomp h hsel
    unfold extractArticleTitle
    rw [hdecomp, resolveFirst_append page sel post pre h hsel]
  · intro page h
    unfold extractArticleTitle
    rw [resolveFirst_none page newsTitleSelectors h]

/-- C5 witness: on `samplePage` the first selector `h1` fails, so the loop
returns the second selector's trimmed text, not the page title. -/
theorem fieldResolution_first_match_wins_witness :
    extractArticleTitle samplePage = "The Title" ∧
      resolveFirst samplePage (["h1"] ++ "article h1" :: []) = some "The Title" ∧
      extractText samplePage "h1" = "" := by
  have h3 := fieldResolution_first_match_wins.2.2.1 samplePage ["h1"]
    [".article-title", ".post-title", ".entry-title", "[itemprop=\"headline\"]",
      "header h1", "main h1"] "article h1" (by decide) (by decide) (by decide)
  have h1 := fieldResolution_first_match_wins.1 samplePage ["h1"] [] "article h1"
    (by decide) (by decide)
  have h2 := fieldResolution_first_match_wins.2.1 samplePage "h1" (by decide)
  refine ⟨?_, ?_, h2⟩
  · rw [h3]; decide
  · rw [h1]; decide

/-- C6: the Markdown image rule emits `![alt](src =WxH)` when both size
attributes are present, `![alt](src =Wx)` for width only, `![alt](src =xH)`
for height only, `![alt](src)` when both are absent, and the empty string
when the `src` attribute is empty or absent. -/
theorem imageRule_size_suffix_forms :
    ∀ (alt src w h : String), src ≠ "" → w ≠ "" → h ≠ "" →
      imageRuleReplacement alt (some src) (some w) (some h) =
          "![" ++ alt ++ "](" ++ src ++ " =" ++ w ++ "x" ++ h ++ ")" ∧
        imageRuleReplacement alt (some src) (some w) none =
          "![" ++ alt ++ "](" ++ src ++ " =" ++ w ++ "x)" ∧
        imageRuleReplacement alt (some src) none (some h) =
          "![" ++ alt ++ "](" ++ src ++ " =x" ++ h ++ ")" ∧
        imageRuleReplacement alt (some src) none none =
          "![" ++ alt ++ "](" ++ src ++ ")" ∧
        imageRuleReplacement alt (some "") (some w) (some h) = "" ∧
        imageRuleReplacement alt none (some w) (some h) = "" := by
  intro alt src w h hsrc hw hh
  refine ⟨?_, ?_, ?_, ?_, ?_, ?_⟩ <;>
    simp [imageRuleReplacement, attrTruthy, hsrc, hw, hh]

/-- C6 witness: the concrete `<img alt="x" src="y" width="10" height="20">`
instance of the claim. -/
theorem imageRule_size_suffix_forms_witness :
    imageRuleReplacement "x" (some "y") (some "10") (some "20") = "![x](y =10x20)" ∧
      imageRuleReplacement "x" (some "y") none none = "![x](y)" ∧
      imageRuleReplacement "x" (some "y") (some "10") none = "![x](y =10x)" ∧
      imageRuleReplacement "x" (some "y") none (some "20") = "![x](y =x20)" ∧
      imageRuleReplacement "x" (some "") (some "10") (some "20") = "" := by
  have h := imageRule_size_suffix_forms "x" "y" "10" "20" (by decide) (by decide) (by decide)
  exact ⟨by rw [h.1]; decide, by rw [h.2.2.2.1]; decide, by rw [h.2.1]; decide,
    by rw [h.2.2.1]; decide, h.2.2.2.2.1⟩

/-- `String.join` unfolds one element at a time. -/
lemma stringJoin_cons (a : String) (l : List String) :
    String.join (a :: l) = a ++ String.join l := by
  apply String.ext
  simp

/-- One rendered table line followed by its terminating newline. -/
lemma specTableLine_newline (cells : List String) :
    specTableLine cells ++ "\n" = "| " ++ String.intercalate " | " cells ++ " |\n" := by
  unfold specTableLine
  rw [String.append_assoc]
  have h : (" |" : String) ++ "\n" = " |\n" := rfl
  rw [h]

/-- C7: the Markdown table rule renders the first row as the header line,
follows it with a separator line containing `---` once per header column,
maps each remaining row one-to-one onto a data line in order, and passes a
table with no rows through unchanged. -/
theorem tableRule_matches_spec :
    (∀ content : String, tableRuleReplacement content [] = content) ∧
      (∀ (content : String) (headerRow : List (Option String))
        (dataRows : List (List (Option String))),
        tableRuleReplacement content (headerRow :: dataRows) =
          specTableMarkdown headerRow dataRows) := by
  refine ⟨fun content => rfl, ?_⟩
  intro content headerRow dataRows
  simp only [tableRuleReplacement, specTableMarkdown, List.map_cons, List.map_map]
  rw [stringJoin_cons, stringJoin_cons]
  rw [specTableLine_newline, specTableLine_newline]
  have hmap :
      ((fun l => l ++ "\n") ∘ fun row => specTableLine (List.map cellText row)) =
        fun row : List (Option String) =>
          "| " ++ String.intercalate " | " (List.map cellText row) ++ " |\n" := by
    funext row
    exact specTableLine_newline (List.map cellText row)
  rw [hmap]
  have l1 : ("\n" : String) ++ "| " = "\n| " := by decide
  have l2 : (" |\n" : String) ++ "| " = " |\n| " := by decide
  have m1 : ∀ t : String, "\n" ++ ("| " ++ t) = "\n| " ++ t := by
    intro t
    rw [← String.append_assoc, l1]
  have m2 : ∀ t : String, " |\n" ++ ("| " ++ t) = " |\n| " ++ t := by
    intro t
    rw [← String.append_assoc, l2]
  simp [String.append_assoc, m1, m2]

/-- Any state reachable by `checkAndIncrementRateLimit` keeps the stored
count at or below the maximum, provided the maximum is at least 1. -/
lemma step_count_le (maxRequests windowMs : Nat) (h1 : 1 ≤ maxRequests)
    (s : Option RLData) (now : Nat)
    (hs : ∀ d0, s = some d0 → d0.count ≤ maxRequests) :
    ∀ d, (checkAndIncrementRateLimit s now maxRequests windowMs).2 = some d →
      d.count ≤ maxRequests := by
  intro d hd
  cases s with
  | none =>
      simp [checkAndIncrementRateLimit, checkRateLimit, incrementRateLimit] at hd
      subst hd
      exact h1
  | some d0 =>
      have hc := hs d0 rfl
      by_cases hexp : now > d0.reset
      · simp [checkAndIncrementRateLimit, checkRateLimit, incrementRateLimit, hexp] at hd
        subst hd
        exact h1
      · by_cases hl : (maxRequests : Int) - d0.count ≤ 0
        · simp [checkAndIncrementRateLimit, checkRateLimit, hexp, hl] at hd
          subst hd
          exact hc
        · simp [checkAndIncrementRateLimit, checkRateLimit, incrementRateLimit,
            hexp, hl] at hd
          subst hd
          show d0.count + 1 ≤ maxRequests
          omega

/-- When a call reports `limited`, the stored record it leaves behind holds
a count that has reached the maximum. -/
lemma step_limited_count (maxRequests windowMs : Nat) (s : Option RLData) (now : Nat)
    (hlim : (checkAndIncrementRateLimit s now maxRequests windowMs).1.limited = true) :
    ∀ d, (checkAndIncrementRateLimit s now maxRequests windowMs).2 = some d →
      maxRequests ≤ d.count := by
  intro d hd
  cases s with
  | none =>
      simp [checkAndIncrementRateLimit, checkRateLimit, incrementRateLimit] at hlim
  | some d0 =>
      by_cases hexp : now > d0.reset
      · simp [checkAndIncrementRateLimit, checkRateLimit, incrementRateLimit,
          hexp] at hlim
      · by_cases hl : (maxRequests : Int) - d0.count ≤ 0
        · simp [checkAndIncrementRateLimit, checkRateLimit, hexp, hl] at hd
          subst hd
          omega
        · simp [checkAndIncrementRateLimit, checkRateLimit, incrementRateLimit,
            hexp, hl] at hlim hd
          subst hd
          show maxRequests ≤ d0.count + 1
          omega

/-- A call against a full window record (count at the maximum, window not
yet expired) is rejected without any store write. -/
lemma rejected_no_write (maxRequests windowMs : Nat) (d : RLData) (now2 : Nat)
    (hfull : maxRequests ≤ d.count) (hwin : now2 ≤ d.reset) :
    (checkAndIncrementRateLimit (some d) now2 maxRequests windowMs).2 = some d := by
  have hexp : ¬ now2 > d.reset := by omega
  have hl : (maxRequests : Int) - d.count ≤ 0 := by omega
  simp [checkAndIncrementRateLimit, checkRateLimit, hexp, hl]

/-- The fold of sequential calls keeps the stored count at or below the
maximum. -/
lemma runRateCalls_count_le (maxRequests windowMs : Nat) (h1 : 1 ≤ maxRequests) :
    ∀ (times : List Nat) (s : Option RLData),
      (∀ d0, s = some d0 → d0.count ≤ maxRequests) →
      ∀ d, (runRateCalls times maxRequests windowMs s).2 = some d →
        d.count ≤ maxRequests := by
  intro times
  induction times with
  | nil =>
      intro s hs d hd
      simp [runRateCalls] at hd
      exact hs d hd
  | cons t ts ih =>
      intro s hs d hd
      simp only [runRateCalls] at hd
      exact ih (checkAndIncrementRateLimit s t maxRequests windowMs).2
        (step_count_le maxRequests windowMs h1 s t hs) d hd

/-- C9: under sequential calls to `checkAndIncrementRateLimit` for one
domain (maximum at least 1), the stored count never exceeds the maximum;
and once a call reports `limited`, any subsequent call while the stored
window is still current performs no store write — the stored record is
returned unchanged. -/
theorem checkAndIncrement_sequential_invariant :
    ∀ (maxRequests windowMs : Nat), 1 ≤ maxRequests →
      (∀ (times : List Nat) (d : RLData),
        (runRateCalls times maxRequests windowMs none).2 = some d →
        d.count ≤ maxRequests) ∧
      (∀ (s : Option RLData) (now : Nat) (d : RLData) (now2 : Nat),
        (checkAndIncrementRateLimit s now maxRequests windowMs).1.limited = true →
        (checkAndIncrementRateLimit s now maxRequests windowMs).2 = some d →
        now2 ≤ d.reset →
        (checkAndIncrementRateLimit (some d) now2 maxRequests windowMs).2 = some d) := by
  intro maxRequests windowMs h1
  constructor
  · intro times d hd
    exact runRateCalls_count_le maxRequests windowMs h1 times none (by simp) d hd
  · intro s now d now2 hlim hd hwin
    exact rejected_no_write maxRequests windowMs d now2
      (step_limited_count maxRequests windowMs s now hlim d hd) hwin

/-- C9 witness: with `maxRequests = 3, windowMs = 60000`, the state left by
four calls in one window holds count 3 ≤ 3, and a further call at time 10
against that full record leaves it unchanged. -/
theorem checkAndIncrement_sequential_invariant_witness :
    (RLData.count { count := 3, reset := 60000 } ≤ 3) ∧
      (checkAndIncrementRateLimit (some { count := 3, reset := 60000 }) 10 3 60000).2 =
        some { count := 3, reset := 60000 } := by
  have h := checkAndIncrement_sequential_invariant 3 60000 (by decide)
  refine ⟨?_, ?_⟩
  · exact h.1 [0, 1, 2, 3] { count := 3, reset := 60000 } (by decide)
  · exact h.2 (some { count := 2, reset := 60000 }) 5 { count := 3, reset := 60000 } 10
      (by decide) (by decide) (by decide)

end WebScrape
